import Mathlib

/-!
Verification development for the micro-lending repository's ETL pipeline
(src/reporting/etl/{transform,extract,load}.py), shallowly embedded in Lean.

Modelling conventions:
* Python row dicts (as produced by pymysql DictCursor) are association lists
  `Row := List (String × Val)` over a value type `Val` covering the SQL values
  the ETL code manipulates: NULL, booleans, numbers and strings.  `row.get(k)`
  (default None) is `Row.get`, `row.get(k, d)` is `Row.getD`, and `row[k]`
  after a passed not-null check coincides with `Row.get`.
* Python `Decimal` / `float` arithmetic is modelled over `ℚ`.  `Decimal`
  addition/multiplication at the sizes exercised here is exact; `Decimal`
  division rounds to 28 significant digits in Python, which is modelled as
  exact rational division — no claim below depends on digits beyond the
  28th.  `round(x, n)` (both `Decimal.__round__` and float `round`) rounds
  half to even, modelled by `pyRound`.
* Wall-clock values (`datetime.now()`) are modelled as explicit fields of the
  transformer state (`today`, `today_date_key`); the `*_time` timing fields
  of the result dataclasses are wall-clock measurements and are omitted.
-/

inductive Val where
  | vnull
  | vbool (b : Bool)
  | vnum (q : ℚ)
  | vstr (s : String)
deriving DecidableEq

/-- Python truthiness of the values a `Row` can hold (used by `or` and `if`). -/
def Val.truthy : Val → Bool
  | .vnull => false
  | .vbool b => b
  | .vnum q => q != 0
  | .vstr s => s != ""

/-- Python `a or b` on row values: `b` when `a` is falsy, else `a`. -/
def pyOr (a b : Val) : Val := if a.truthy then a else b

abbrev Row : Type := List (String × Val)

/-- `dict.get(k)`: None when the key is absent or its value is None. -/
def Row.get (r : Row) (k : String) : Val := (List.lookup k r).getD Val.vnull

/-- `dict.get(k, d)`: the default applies only when the key is absent. -/
def Row.getD (r : Row) (k : String) (d : Val) : Val := (List.lookup k r).getD d

/-- Python dict insertion `d[k] = v`: overwrite in place if the key exists,
else append at the end (dicts preserve insertion order). -/
def dictInsert {α : Type} (d : List (String × α)) (k : String) (v : α) :
    List (String × α) :=
  if d.any (fun p => p.1 = k) then
    d.map (fun p => if p.1 = k then (k, v) else p)
  else d ++ [(k, v)]

/-- String content of a value; the source only ever builds string keys from
string-valued columns, so the other branches are inert defaults. -/
def Val.toStr : Val → String
  | .vstr s => s
  | _ => ""

/-- Numeric content of a value (`float(x)` / `Decimal(str(x))` on a numeric
column).  Non-numeric inputs are not exercised by any claim. -/
def Val.toRat : Val → ℚ
  | .vnum q => q
  | .vbool b => if b then 1 else 0
  | _ => 0

/-- Python `float(value)` as used by `validate_range`: numbers and booleans
coerce, strings are modelled as failing coercion (`ValueError`) — no string
ever reaches a range check in the data the claims quantify over. -/
def Val.asFloat : Val → Option ℚ
  | .vnum q => some q
  | .vbool b => some (if b then 1 else 0)
  | _ => none

/-- Round half to even at `nd` decimal places (`round(Decimal, nd)` /
`round(float, nd)` — Decimal uses ROUND_HALF_EVEN by default). -/
def roundHalfEven (x : ℚ) : ℤ :=
  let f := ⌊x⌋
  let r := x - (f : ℚ)
  if r < 1/2 then f
  else if 1/2 < r then f + 1
  else if f % 2 = 0 then f else f + 1

def pyRound (x : ℚ) (nd : ℕ) : ℚ := (roundHalfEven (x * 10 ^ nd) : ℚ) / 10 ^ nd

/- ===== transform.py : ValidationError / TransformResult data model ===== -/

structure ValidationError where
  table : String
  record_id : Val
  field : String
  error_type : String
  message : String
  value : Val := Val.vnull
deriving DecidableEq

structure TransformResult where
  table : String
  rows : List Row
  row_count : ℕ
  rejected_count : ℕ
  errors : List ValidationError := []
deriving DecidableEq

/-- Transformer instance state as read by the transform methods: the
`market_data` / `reference_data` dict entries the code looks up, the valid
enum lists, and the wall clock (see the header comment).  `batch_size` is
not modelled: the batch loop of `transform_users`/`transform_loans` slices
the input into consecutive chunks and its body only appends rows/errors and
increments the rejected counter (the per-batch `logger.debug` has no data
effect), so the traversal equals a single left-to-right pass over the input
for any batch size ≥ 1 (`range(0, n, batch_size)` requires a positive step).
-/
structure Transformer where
  fx_rates : List (String × ℚ) := []
  spreads : List (String × ℤ) := []
  benchmarks : List (String × ℚ) := []
  products : List (String × Row) := []
  valid_loan_statuses : List String := []
  valid_user_roles : List String := []
  today : Val := Val.vstr "2026-10-12"
  today_date_key : ℤ := 20261012

/- ===== transform.py : generic per-field validators ===== -/

/-- `Transformer.validate_not_null` — one NULL_VALUE error per null field. -/
def validate_not_null (row : Row) (fields : List String) (table : String) :
    List ValidationError :=
  let record_id := row.getD "id" (Val.vstr "unknown")
  fields.filterMap (fun f =>
    if row.get f = Val.vnull then
      some { table := table, record_id := record_id, field := f,
             error_type := "NULL_VALUE",
             message := "Required field " ++ f ++ " is null" }
    else none)

/-- `Transformer.validate_range` — skip nulls; `float` coercion failure is
INVALID_TYPE, out-of-bounds is OUT_OF_RANGE. -/
def validate_range (row : Row) (f : String) (min_val max_val : ℚ)
    (table : String) : Option ValidationError :=
  match row.get f with
  | .vnull => none
  | v =>
    match v.asFloat with
    | some num_val =>
        if num_val < min_val ∨ max_val < num_val then
          some { table := table, record_id := row.getD "id" (Val.vstr "unknown"),
                 field := f, error_type := "OUT_OF_RANGE",
                 message := f ++ " value outside range", value := row.get f }
        else none
    | none =>
        some { table := table, record_id := row.getD "id" (Val.vstr "unknown"),
               field := f, error_type := "INVALID_TYPE",
               message := f ++ " is not a valid number", value := row.get f }

/-- `Transformer.validate_enum` — non-null value not among the allowed
(string) values. -/
def validate_enum (row : Row) (f : String) (allowed : List String)
    (table : String) : Option ValidationError :=
  let value := row.get f
  if value ≠ Val.vnull ∧ ¬ (allowed.any (fun a => value = Val.vstr a)) then
    some { table := table, record_id := row.getD "id" (Val.vstr "unknown"),
           field := f, error_type := "INVALID_ENUM",
           message := f ++ " value not in allowed list", value := value }
  else none

/-- `Transformer.validate_foreign_key` — non-null value absent from the
valid-id set. -/
def validate_foreign_key (row : Row) (f : String) (valid_ids : List Val)
    (table ref_table : String) : Option ValidationError :=
  let value := row.get f
  if value ≠ Val.vnull ∧ value ∉ valid_ids then
    some { table := table, record_id := row.getD "id" (Val.vstr "unknown"),
           field := f, error_type := "INVALID_FK",
           message := f ++ " value not found in " ++ ref_table, value := value }
  else none

/-- `Transformer.check_duplicates` — first occurrence of a key wins, every
later occurrence is flagged (the Python `seen` set is modelled by the list
of keys already visited). -/
def check_duplicates (key_field table : String) : List Val → List Row →
    List ValidationError
  | _, [] => []
  | seen, row :: rest =>
    let key := row.get key_field
    (if key ∈ seen then
       [{ table := table, record_id := key, field := key_field,
          error_type := "DUPLICATE",
          message := "Duplicate " ++ key_field }]
     else []) ++ check_duplicates key_field table (key :: seen) rest

/- ===== transform.py : enrichment helpers ===== -/

/-- `Transformer.get_credit_tier`.  A string score would raise a TypeError in
Python; rows reaching this point passed the numeric range check, so that
branch is unreachable and gets an inert default. -/
def get_credit_tier : Val → String
  | .vnull => "NO_SCORE"
  | .vnum q =>
    if 750 ≤ q then "Excellent"
    else if 650 ≤ q then "Good"
    else if 550 ≤ q then "Fair"
    else "Poor"
  | .vbool _ => "Poor"
  | .vstr _ => "Poor"

/-- `Transformer.get_term_category`; non-numeric non-null terms would raise
in Python and are not exercised. -/
def get_term_category : Val → String
  | .vnull => "unknown"
  | .vnum q => if q ≤ 6 then "short" else if q ≤ 24 then "medium" else "long"
  | .vbool _ => "unknown"
  | .vstr _ => "unknown"

/-- `Transformer.safe_decimal` — default on null or coercion failure. -/
def safe_decimal (v : Val) (default : ℚ) : ℚ :=
  match v with
  | .vnull => default
  | .vnum q => q
  | .vbool b => if b then 1 else 0
  | .vstr _ => default

/-- `Transformer.get_date_key` — 19700101 on null; datetime/date/ISO-string
parsing is wall-clock/calendar formatting that no claim exercises, so every
non-null input is modelled by the same sentinel the source returns for
unparseable input. -/
def get_date_key : Val → ℤ
  | _ => 19700101

/- ===== transform.py : Transformer.transform_loans ===== -/

/-- Fallback list at transform.py lines 254-257 (used when
`valid_loan_statuses` was not loaded). -/
def defaultLoanStatuses : List String :=
  ["pending", "approved", "rejected", "withdrawn",
   "active", "paid_off", "defaulted", "cancelled"]

/-- `valid_statuses = self.valid_loan_statuses if self.valid_loan_statuses
else [...]` (Python list truthiness = non-emptiness). -/
def loanValidStatuses (t : Transformer) : List String :=
  if t.valid_loan_statuses.isEmpty then defaultLoanStatuses
  else t.valid_loan_statuses

/-- The per-loan validation block of `transform_loans` (lines 271-286): the
errors of all four rule applications are concatenated before the rejection
decision — no short-circuiting. -/
def loanRequiredFields : List String :=
  ["id", "borrower_id", "principal_amount", "interest_rate", "term_months"]

def loanRowErrors (t : Transformer) (user_ids : List Val) (loan : Row) :
    List ValidationError :=
  validate_not_null loan loanRequiredFields "loan"
    ++ (validate_foreign_key loan "borrower_id" user_ids "loan" "user").toList
    ++ (validate_enum loan "status" (loanValidStatuses t) "loan").toList
    ++ (validate_range loan "interest_rate" 0 100 "loan").toList

/-- Number of the four per-loan validation rules a loan fails. -/
def loanFailedRuleCount (t : Transformer) (uids : List Val) (loan : Row) : ℕ :=
  (if (validate_not_null loan loanRequiredFields "loan").isEmpty then 0 else 1)
  + (if (validate_foreign_key loan "borrower_id" uids "loan" "user").isSome
     then 1 else 0)
  + (if (validate_enum loan "status" (loanValidStatuses t) "loan").isSome
     then 1 else 0)
  + (if (validate_range loan "interest_rate" 0 100 "loan").isSome
     then 1 else 0)

/-- Key lookup in the `fx_rates` dict: only string currencies can hit. -/
def fxLookup (fx : List (String × ℚ)) (c : Val) : Option ℚ :=
  match c with
  | .vstr s => List.lookup s fx
  | _ => none

/-- The MISSING_FX_RATE ValidationError constructed at transform.py lines
305-314 for an accepted row whose non-USD currency has no FX rate.  In the
source this error is appended to the local `row_errors` list AFTER the
rejection check at line 288 and `errors.extend(row_errors)` is never run
again for the row, so the constructed error is discarded — it never reaches
`TransformResult.errors` (see the C5 theorems). -/
def loanFxWarning (t : Transformer) (loan : Row) : List ValidationError :=
  let currency := loan.getD "currency_code" (Val.vstr "USD")
  if currency ≠ Val.vstr "USD" ∧ fxLookup t.fx_rates currency = none then
    [{ table := "loan", record_id := loan.get "id", field := "currency_code",
       error_type := "MISSING_FX_RATE",
       message := "FX rate not found for currency, using 1.0",
       value := currency }]
  else []

/-- Unrounded `interest_amount = principal * (interest_rate / 100) *
(term_months / 12)` (transform.py line 328). -/
def loanInterestAmount (loan : Row) : ℚ :=
  (loan.get "principal_amount").toRat
    * ((loan.get "interest_rate").toRat / 100)
    * ((loan.get "term_months").toRat / 12)

/-- The enrichment/output block of `transform_loans` for an accepted loan
(lines 293-353), producing the fact row dict in source field order. -/
def loanOutputRow (t : Transformer) (loan : Row) : Row :=
  let principal := (loan.get "principal_amount").toRat
  let interest_rate := (loan.get "interest_rate").toRat
  let product_code := loan.get "product_code"
  let product_info : Row :=
    (match product_code with
     | .vstr s => List.lookup s t.products
     | _ => none).getD []
  let product_category := product_info.getD "category" (Val.vstr "personal")
  let currency := loan.getD "currency_code" (Val.vstr "USD")
  let fx_rate := (fxLookup t.fx_rates currency).getD 1
  let amount_usd := if fx_rate ≠ 0 then principal / fx_rate else principal
  let credit_tier := loan.getD "credit_tier_code" (Val.vstr "PRIME")
  let spread_key := credit_tier.toStr ++ ":" ++ product_category.toStr
  let credit_spread_bps := (List.lookup spread_key t.spreads).getD 0
  let benchmark_code := loan.getD "benchmark_code" (Val.vstr "PRIME")
  let benchmark_rate :=
    (match benchmark_code with
     | .vstr s => List.lookup s t.benchmarks
     | _ => none).getD 0
  let effective_rate := interest_rate + (credit_spread_bps : ℚ) / 100
  let interest_amount := loanInterestAmount loan
  [("loan_id", loan.get "id"),
   ("application_id", loan.get "application_id"),
   ("date_key",
    Val.vnum (get_date_key
      (pyOr (loan.get "created_at") (loan.get "disbursed_at")) : ℚ)),
   ("user_id", loan.get "borrower_id"),
   ("transaction_type", Val.vstr "origination"),
   ("principal_amount", Val.vnum principal),
   ("interest_amount", Val.vnum (pyRound interest_amount 2)),
   ("total_amount", Val.vnum (principal + interest_amount)),
   ("amount_usd", Val.vnum (pyRound amount_usd 2)),
   ("interest_rate", loan.get "interest_rate"),
   ("effective_rate", Val.vnum effective_rate),
   ("benchmark_rate", Val.vnum benchmark_rate),
   ("credit_spread_bps", Val.vnum (credit_spread_bps : ℚ)),
   ("term_months", loan.get "term_months"),
   ("term_category", Val.vstr (get_term_category (loan.get "term_months"))),
   ("outstanding_balance", loan.getD "outstanding_balance" (Val.vnum principal)),
   ("status", loan.getD "status" (Val.vstr "active")),
   ("currency_code", currency),
   ("fx_rate", Val.vnum fx_rate),
   ("product_code", product_code),
   ("product_category", product_category),
   ("credit_tier", credit_tier)]

/-- The loan loop of `transform_loans` (lines 267-353), written as structural
recursion producing the same rows/errors lists (in the same left-to-right
order) and rejected count as the Python append/extend loop.  Note the
accepted branch discards the post-check `row_errors` additions (the
MISSING_FX_RATE case, `loanFxWarning`), exactly as the source does. -/
def transformLoansGo (t : Transformer) (user_ids : List Val) :
    List Row → List Row × List ValidationError × ℕ
  | [] => ([], [], 0)
  | loan :: rest =>
    let row_errors := loanRowErrors t user_ids loan
    let (rows, errs, rej) := transformLoansGo t user_ids rest
    if row_errors.isEmpty then (loanOutputRow t loan :: rows, errs, rej)
    else (rows, row_errors ++ errs, rej + 1)

/-- `Transformer.transform_loans` (transform.py lines 247-368). -/
def transform_loans (t : Transformer) (loans : List Row) (user_ids : List Val) :
    TransformResult :=
  let (rows, errs, rej) := transformLoansGo t user_ids loans
  { table := "fact_loan_transactions", rows := rows, row_count := rows.length,
    rejected_count := rej, errors := errs }

/- ===== transform.py : Transformer.transform_users / transform_products ===== -/

/-- Fallback at transform.py line 193. -/
def defaultUserRoles : List String := ["borrower", "lender", "admin"]

def userValidRoles (t : Transformer) : List String :=
  if t.valid_user_roles.isEmpty then defaultUserRoles else t.valid_user_roles

/-- The per-user validation block of `transform_users` (lines 201-210). -/
def userRowErrors (t : Transformer) (user : Row) : List ValidationError :=
  validate_not_null user ["id", "email", "role"] "user"
    ++ (validate_enum user "role" (userValidRoles t) "user").toList
    ++ (validate_range user "credit_score" 300 850 "user").toList

/-- The dim_user output dict for an accepted user (lines 217-230). -/
def userOutputRow (t : Transformer) (user : Row) : Row :=
  [("user_id", user.get "id"),
   ("email", user.get "email"),
   ("full_name", user.get "full_name"),
   ("role", user.get "role"),
   ("credit_score", user.get "credit_score"),
   ("credit_tier", Val.vstr (get_credit_tier (user.get "credit_score"))),
   ("region_code", Val.vnull),
   ("region_name", Val.vnull),
   ("is_active", user.getD "is_active" (Val.vbool true)),
   ("effective_date", t.today),
   ("expiry_date", Val.vstr "9999-12-31"),
   ("is_current", Val.vbool true)]

/-- The user loop of `transform_users` (lines 197-233), same shape as
`transformLoansGo`. -/
def transformUsersGo (t : Transformer) :
    List Row → List Row × List ValidationError × ℕ
  | [] => ([], [], 0)
  | user :: rest =>
    let row_errors := userRowErrors t user
    let (rows, errs, rej) := transformUsersGo t rest
    if row_errors.isEmpty then (userOutputRow t user :: rows, errs, rej)
    else (rows, row_errors ++ errs, rej + 1)

/-- `Transformer.transform_users` (transform.py lines 186-245). -/
def transform_users (t : Transformer) (users : List Row) : TransformResult :=
  let (rows, errs, rej) := transformUsersGo t users
  { table := "dim_user", rows := rows, row_count := rows.length,
    rejected_count := rej, errors := errs }

/-- The dim_loan_product output dict (transform.py lines 375-387). -/
def productOutputRow (t : Transformer) (product : Row) : Row :=
  [("product_code", product.get "product_code"),
   ("product_name", product.get "product_name"),
   ("category", product.get "category"),
   ("term_category", Val.vstr (get_term_category (product.get "max_term_months"))),
   ("min_amount", product.get "min_amount"),
   ("max_amount", product.get "max_amount"),
   ("base_interest_rate", product.get "base_interest_rate"),
   ("risk_tier", Val.vstr "standard"),
   ("effective_date", t.today),
   ("expiry_date", Val.vstr "9999-12-31"),
   ("is_current", Val.vbool true)]

/-- `Transformer.transform_products` (transform.py lines 370-396): every
product row is transformed, none rejected. -/
def transform_products (t : Transformer) (products : List Row) :
    TransformResult :=
  { table := "dim_loan_product", rows := products.map (productOutputRow t),
    row_count := (products.map (productOutputRow t)).length,
    rejected_count := 0, errors := [] }

/- ===== transform.py : Transformer.calculate_portfolio_snapshot ===== -/

/-- Sum of a list of rationals (`sum(...)` over the comprehension). -/
def ratSum (l : List ℚ) : ℚ := l.foldl (· + ·) 0

/-- The `interest_rates` comprehension of `calculate_portfolio_snapshot`
(transform.py line 420): all non-null interest rates. -/
def portfolioInterestRates (loans : List Row) : List ℚ :=
  (loans.filter (fun l => l.get "interest_rate" ≠ Val.vnull)).map
    (fun l => safe_decimal (l.get "interest_rate") 0)

/-- The `credit_scores` comprehension of `calculate_portfolio_snapshot`
(transform.py line 423): all non-null credit scores. -/
def portfolioCreditScores (users : List Row) : List ℚ :=
  (users.filter (fun u => u.get "credit_score" ≠ Val.vnull)).map
    (fun u => (u.get "credit_score").toRat)

/-- `Transformer.calculate_portfolio_snapshot` (transform.py lines 398-446).
Every ratio is guarded by the same zero-denominator conditionals as the
source (`x / n if n > 0 else 0`, `sum(l)/len(l) if l else 0`).  Credit
scores are summed as numbers; a non-numeric non-null score would raise in
Python and is not exercised (nulls are filtered exactly as in the source).
-/
def calculate_portfolio_snapshot (t : Transformer) (loans users : List Row) :
    Row :=
  let total_users := users.length
  let active_borrowers :=
    (users.filter (fun u => u.get "role" = Val.vstr "borrower")).length
  let active_lenders :=
    (users.filter (fun u => u.get "role" = Val.vstr "lender")).length
  let total_loans := loans.length
  let active_loans :=
    (loans.filter (fun l => l.get "status" = Val.vstr "active")).length
  let defaulted_loans :=
    (loans.filter (fun l => l.get "status" = Val.vstr "defaulted")).length
  let paid_off_loans :=
    (loans.filter (fun l => l.get "status" = Val.vstr "paid_off")).length
  let total_principal :=
    ratSum (loans.map (fun l => safe_decimal (l.get "principal_amount") 0))
  let total_outstanding :=
    ratSum ((loans.filter (fun l => l.get "status" = Val.vstr "active")).map
      (fun l => safe_decimal (l.get "outstanding_balance") 0))
  let total_repaid := total_principal - total_outstanding
  let default_rate :=
    if 0 < total_loans then (defaulted_loans : ℚ) / (total_loans : ℚ) else 0
  let avg_loan_size :=
    if 0 < total_loans then total_principal / (total_loans : ℚ) else 0
  let interest_rates := portfolioInterestRates loans
  let avg_interest :=
    if interest_rates.isEmpty then 0
    else ratSum interest_rates / (interest_rates.length : ℚ)
  let credit_scores := portfolioCreditScores users
  let avg_credit :=
    if credit_scores.isEmpty then 0
    else ratSum credit_scores / (credit_scores.length : ℚ)
  [("date_key", Val.vnum (t.today_date_key : ℚ)),
   ("total_users", Val.vnum (total_users : ℚ)),
   ("active_borrowers", Val.vnum (active_borrowers : ℚ)),
   ("active_lenders", Val.vnum (active_lenders : ℚ)),
   ("total_loans", Val.vnum (total_loans : ℚ)),
   ("active_loans", Val.vnum (active_loans : ℚ)),
   ("total_principal", Val.vnum total_principal),
   ("total_outstanding", Val.vnum total_outstanding),
   ("total_repaid", Val.vnum total_repaid),
   ("loans_originated_today", Val.vnum 0),
   ("amount_originated_today", Val.vnum 0),
   ("payments_received_today", Val.vnum 0),
   ("loans_defaulted", Val.vnum (defaulted_loans : ℚ)),
   ("loans_paid_off", Val.vnum (paid_off_loans : ℚ)),
   ("default_rate", Val.vnum (pyRound default_rate 4)),
   ("delinquency_rate", Val.vnum 0),
   ("avg_loan_size", Val.vnum (pyRound avg_loan_size 2)),
   ("avg_interest_rate", Val.vnum (pyRound avg_interest 2)),
   ("weighted_avg_credit_score", Val.vnum (pyRound avg_credit 1))]

/- ===== transform.py : Transformer.run_transform ===== -/

/-- The extract-result bundle consumed by `run_transform`.  The fields below
are the keys on which the source unconditionally dereferences `.rows`
(lines 452-487, 508-537) — a missing one would raise AttributeError — plus
the two optional keys accessed through `hasattr` (lines 490-505).  Only the
row lists matter to `run_transform`. -/
structure ExtractBundle where
  users : List Row
  loans : List Row
  fx_rates : List Row
  benchmarks : List Row
  spreads : List Row
  products : List Row
  currencies : List Row
  credit_tiers : List Row
  regions : List Row
  loan_statuses : Option (List Row) := none
  user_roles : Option (List Row) := none

/-- Truncation toward zero (`int(x)` on a number). -/
def ratTrunc (q : ℚ) : ℤ := if 0 ≤ q then ⌊q⌋ else -⌊-q⌋

/-- The transformer state after the lookup-building section of
`run_transform` (transform.py lines 454-505): FX / benchmark / spread /
product dicts and the valid enum lists, each built by dict-comprehension
over the corresponding extract rows (later rows overwrite earlier keys). -/
def runTransformState (t : Transformer) (ex : ExtractBundle) : Transformer :=
  { t with
    fx_rates := ex.fx_rates.foldl
      (fun d r => dictInsert d (r.get "quote_currency").toStr
        (r.get "rate").toRat) [],
    benchmarks := ex.benchmarks.foldl
      (fun d r => dictInsert d (r.get "benchmark_code").toStr
        (r.get "rate").toRat) [],
    spreads := ex.spreads.foldl
      (fun d r => dictInsert d
        ((r.get "tier_code").toStr ++ ":" ++ (r.get "product_category").toStr)
        (ratTrunc (r.get "spread_bps").toRat)) [],
    products := ex.products.foldl
      (fun d p => dictInsert d (p.get "product_code").toStr p) [],
    valid_loan_statuses :=
      match ex.loan_statuses with
      | some rows =>
        if rows.isEmpty then defaultLoanStatuses
        else rows.map (fun s =>
          (s.getD "status_code" (s.getD "code" (Val.vstr ""))).toStr)
      | none => defaultLoanStatuses,
    valid_user_roles :=
      match ex.user_roles with
      | some rows =>
        if rows.isEmpty then defaultUserRoles
        else rows.map (fun r =>
          (r.getD "role_code" (r.getD "code" (Val.vstr ""))).toStr)
      | none => defaultUserRoles }

/-- The fact_daily_portfolio entry built at transform.py lines 539-544:
always exactly the one snapshot row, row_count 1, rejected_count 0. -/
def portfolioEntry (t : Transformer) (ex : ExtractBundle) : TransformResult :=
  { table := "fact_daily_portfolio",
    rows := [calculate_portfolio_snapshot (runTransformState t ex)
              ex.loans ex.users],
    row_count := 1, rejected_count := 0, errors := [] }

/-- `Transformer.run_transform` (transform.py lines 448-551): builds the
lookup state, runs duplicate detection on the source users/loans (appending
those errors to the respective results WITHOUT removing the duplicated rows
from `rows`), transforms dimensions and facts, and adds the portfolio
snapshot.  The returned dict is modelled as its key/value list in insertion
order.  `user_ids` is the id set comprehension of line 452 (membership is
all that matters, so the list stands in for the set). -/
def run_transform (t : Transformer) (ex : ExtractBundle) :
    List (String × TransformResult) :=
  let st := runTransformState t ex
  let user_ids := ex.users.map (fun u => u.get "id")
  let user_dup_errors := check_duplicates "id" "user" [] ex.users
  let loan_dup_errors := check_duplicates "id" "loan" [] ex.loans
  let dim_user :=
    let r := transform_users st ex.users
    { r with errors := r.errors ++ user_dup_errors }
  let dim_loan_product := transform_products st ex.products
  let fact_loan_transactions :=
    let r := transform_loans st ex.loans user_ids
    { r with errors := r.errors ++ loan_dup_errors }
  [("dim_user", dim_user),
   ("dim_loan_product", dim_loan_product),
   ("fact_loan_transactions", fact_loan_transactions),
   ("fact_daily_portfolio", portfolioEntry t ex)]

/- ===== extract.py : Extractor.extract_incremental and watermark logic ===== -/

namespace Extract

/-- A source table, reduced to the values of its timestamp column: the only
column `extract_incremental`'s watermark logic reads (`WHERE ts > %s`,
`ORDER BY ts`, `SELECT MAX(ts)`).  Timestamps are totally ordered; `ℤ`
stands in for datetime. -/
abbrev SourceTable : Type := List ℤ

/-- `ExtractResult` restricted to the fields the watermark claims mention
(extract.py lines 17-24); `rows` keeps only the timestamp of each row. -/
structure ExtractResult where
  rows : List ℤ
  row_count : ℕ
  watermark : Option ℤ := none
deriving DecidableEq

/-- Insertion sort, standing in for the `ORDER BY timestamp_col` of the
incremental query. -/
def sortTs : List ℤ → List ℤ
  | [] => []
  | x :: xs => insertTs x (sortTs xs)
where insertTs (x : ℤ) : List ℤ → List ℤ
  | [] => [x]
  | y :: ys => if x ≤ y then x :: y :: ys else y :: insertTs x ys

/-- `SELECT MAX(ts) FROM table` — NULL on an empty table. -/
def maxTs : List ℤ → Option ℤ
  | [] => none
  | x :: xs => some (xs.foldl max x)

/-- `Extractor.extract_incremental` (extract.py lines 107-144): fetch the
rows strictly newer than the watermark in timestamp order; when at least
one row came back, re-query the table's current MAX timestamp as the
candidate watermark (`.getD watermark` mirrors the
`result['max_ts'] if result else watermark` guard, unreachable there since
the table is nonempty when rows were fetched).  The returned `watermark`
field is ALWAYS set: it is initialised to the incoming watermark before the
fetch (line 110) and passed to the result unconditionally (line 143). -/
def extract_incremental (table : SourceTable) (watermark : ℤ) : ExtractResult :=
  let rows := sortTs (table.filter (fun ts => watermark < ts))
  let max_timestamp := if rows.isEmpty then watermark
                       else (maxTs table).getD watermark
  { rows := rows, row_count := rows.length, watermark := some max_timestamp }

/-- One table's watermark round trip inside `run_extract` in incremental
mode (extract.py lines 272-295 and 318-322): read the stored watermark; a
NULL stored watermark makes the `extract_*` helper fall back to a full
extract, whose result carries no watermark, so nothing is tracked; with a
stored value, run the incremental extract and, when a run id was supplied
and the result's watermark is truthy (datetimes always are, so: non-None),
write it back with `update_watermark`.  Returns the stored watermark value
after the run. -/
def incrementalWatermarkStep (run_id_present : Bool) (stored : Option ℤ)
    (table : SourceTable) : Option ℤ :=
  match stored with
  | none => none
  | some w =>
    let result := extract_incremental table w
    match result.watermark with
    | some m => if run_id_present then some m else some w
    | none => some w

end Extract

/- ===== load.py : Loader failure semantics ===== -/

namespace Load

/-- `LoadResult` (load.py lines 24-37), without the wall-clock timing and
throughput fields. -/
structure LoadResult where
  table : String
  rows_staged : ℕ
  rows_inserted : ℕ
  rows_updated : ℕ
  success : Bool
  error : Option String := none
  error_code : Option String := none
  rows_rejected : ℕ := 0
deriving DecidableEq

/-- Outcome of one database interaction (the `try` body of a loader): the
driver either raises `pymysql.Error` with a message, or the statements
succeed and — for a stored procedure — out-parameters are read back. -/
inductive SpCall (α : Type) where
  | raises (e : String)
  | returns (a : α)

/-- Transaction-boundary calls a loader makes on the shared connection. -/
inductive ConnAction where
  | commit
  | rollback
deriving DecidableEq

/-- `Loader.load_dim_user` (load.py lines 461-554): empty input short-cuts
to a successful empty result; otherwise the batched `executemany` upsert of
all rows runs inside one try (`total_loaded` sums the batch sizes, hence
`rows.length`), committing on success; on `pymysql.Error` the except branch
rolls the connection back and returns `success=False` with the error
message — it does not re-raise.  The index disable/enable hooks are
try-guarded and have no effect on the result.  The second component records
the commit/rollback calls of this table's unit of work. -/
def load_dim_user (rows : List Row) (db : SpCall Unit) :
    LoadResult × List ConnAction :=
  if rows.isEmpty then
    ({ table := "dim_user", rows_staged := 0, rows_inserted := 0,
       rows_updated := 0, success := true }, [])
  else
    match db with
    | .returns _ =>
      ({ table := "dim_user", rows_staged := rows.length,
         rows_inserted := rows.length, rows_updated := 0, success := true },
       [ConnAction.commit])
    | .raises e =>
      ({ table := "dim_user", rows_staged := rows.length, rows_inserted := 0,
         rows_updated := 0, success := false, error := some e },
       [ConnAction.rollback])

/-- `Loader.load_dim_loan_product` (load.py lines 556-631), same shape. -/
def load_dim_loan_product (rows : List Row) (db : SpCall Unit) :
    LoadResult × List ConnAction :=
  if rows.isEmpty then
    ({ table := "dim_loan_product", rows_staged := 0, rows_inserted := 0,
       rows_updated := 0, success := true }, [])
  else
    match db with
    | .returns _ =>
      ({ table := "dim_loan_product", rows_staged := rows.length,
         rows_inserted := rows.length, rows_updated := 0, success := true },
       [ConnAction.commit])
    | .raises e =>
      ({ table := "dim_loan_product", rows_staged := rows.length,
         rows_inserted := 0, rows_updated := 0, success := false,
         error := some e }, [ConnAction.rollback])

/-- `Loader.load_fact_transactions_via_sp` (load.py lines 310-364): call
the stored procedure and read back (rows_loaded, rows_rejected, status,
message); success iff the reported status string is "success", with the
message recorded as the error otherwise and the status as the error code.
A raised `pymysql.Error` is caught and recorded with code SQL_ERROR; the
procedure is the atomic unit of work, so the loader itself performs no
rollback here. -/
def load_fact_transactions_via_sp
    (db : SpCall (ℕ × ℕ × String × String)) : LoadResult :=
  match db with
  | .returns (rows_loaded, rows_rejected, status, message) =>
    { table := "fact_loan_transactions",
      rows_staged := rows_loaded + rows_rejected,
      rows_inserted := rows_loaded, rows_updated := 0,
      rows_rejected := rows_rejected,
      success := status = "success",
      error := if status = "success" then none else some message,
      error_code := some status }
  | .raises e =>
    { table := "fact_loan_transactions", rows_staged := 0, rows_inserted := 0,
      rows_updated := 0, success := false, error := some e,
      error_code := some "SQL_ERROR" }

/-- `Loader.refresh_portfolio_snapshot_via_sp` (load.py lines 366-413). -/
def refresh_portfolio_snapshot_via_sp (db : SpCall (String × String)) :
    LoadResult :=
  match db with
  | .returns (status, message) =>
    { table := "fact_daily_portfolio", rows_staged := 1,
      rows_inserted := if status = "success" then 1 else 0,
      rows_updated := 0, success := status = "success",
      error := if status = "success" then none else some message,
      error_code := some status }
  | .raises e =>
    { table := "fact_daily_portfolio", rows_staged := 0, rows_inserted := 0,
      rows_updated := 0, success := false, error := some e,
      error_code := some "SQL_ERROR" }

/-- One database outcome per table of a load run. -/
structure DbOutcomes where
  dim_user_db : SpCall Unit
  dim_product_db : SpCall Unit
  fact_db : SpCall (ℕ × ℕ × String × String)
  portfolio_db : SpCall (String × String)

/-- `Loader.run_load` (load.py lines 633-662): load each dimension whose
key is present in the transform results, then always invoke the two
stored-procedure loads, collecting one LoadResult per table into the
results dict (modelled in insertion order).  Each loader catches its own
failures, so `run_load` reaches every table regardless of earlier
per-table outcomes. -/
def run_load (dim_user_rows dim_product_rows : Option (List Row))
    (db : DbOutcomes) : List (String × LoadResult) :=
  (match dim_user_rows with
   | some rows => [("dim_user", (load_dim_user rows db.dim_user_db).1)]
   | none => [])
  ++ (match dim_product_rows with
      | some rows =>
        [("dim_loan_product",
          (load_dim_loan_product rows db.dim_product_db).1)]
      | none => [])
  ++ [("fact_loan_transactions", load_fact_transactions_via_sp db.fact_db),
      ("fact_daily_portfolio", refresh_portfolio_snapshot_via_sp db.portfolio_db)]

end Load

/- ===== Shared concrete fixtures ===== -/

/-- A transformer with no market/reference data loaded (the constructor
defaults: empty dicts, fallback enum lists). -/
def t0 : Transformer := {}

/-- A user row that passes every per-row validation rule. -/
def sampleUser : Row :=
  [("id", Val.vnum 1), ("email", Val.vstr "a"), ("role", Val.vstr "borrower")]

/-- An extract bundle whose users list contains the same user id twice and
which is otherwise empty. -/
def dupUsersBundle : ExtractBundle :=
  { users := [sampleUser, sampleUser], loans := [], fx_rates := [],
    benchmarks := [], spreads := [], products := [], currencies := [],
    credit_tiers := [], regions := [] }

/-- Loan fixture builder: id, borrower 1, principal/rate/term, status. -/
def mkLoan (lid : ℚ) (principal rate term : Val) (status : String) : Row :=
  [("id", Val.vnum lid), ("borrower_id", Val.vnum 1),
   ("principal_amount", principal), ("interest_rate", rate),
   ("term_months", term), ("status", Val.vstr status)]

/-- The six-loan smoke fixture of the spec: one fully valid loan, one with a
negative principal, one with rate 150 > 100, one with a negative term, one
with an invalid status, one with a null principal. -/
def smokeFixture : List Row :=
  [mkLoan 10 (Val.vnum 1000) (Val.vnum 5) (Val.vnum 12) "active",
   mkLoan 11 (Val.vnum (-500)) (Val.vnum 5) (Val.vnum 12) "active",
   mkLoan 12 (Val.vnum 1000) (Val.vnum 150) (Val.vnum 12) "active",
   mkLoan 13 (Val.vnum 1000) (Val.vnum 5) (Val.vnum (-6)) "active",
   mkLoan 14 (Val.vnum 1000) (Val.vnum 5) (Val.vnum 12) "bogus",
   mkLoan 15 Val.vnull (Val.vnum 5) (Val.vnum 12) "active"]

/-- A valid loan in EUR while no FX rates are loaded. -/
def eurLoan : Row :=
  [("id", Val.vnum 30), ("borrower_id", Val.vnum 1),
   ("principal_amount", Val.vnum 200), ("interest_rate", Val.vnum 5),
   ("term_months", Val.vnum 12), ("status", Val.vstr "active"),
   ("currency_code", Val.vstr "EUR")]

/-- A valid loan with principal 100, rate 1 %, term 1 month: its exact
interest 1/12 does not round to two decimal places. -/
def loanTwelfth : Row := mkLoan 20 (Val.vnum 100) (Val.vnum 1) (Val.vnum 1) "active"

/-- The spec's interest-computation scenario: principal 5000, rate 8.5,
term 12 months. -/
def loanScenario : Row :=
  mkLoan 21 (Val.vnum 5000) (Val.vnum (17/2)) (Val.vnum 12) "active"

/- ===== Helper lemmas ===== -/

theorem pyRound_zero (nd : ℕ) : pyRound 0 nd = 0 := by
  simp [pyRound, roundHalfEven]

/-- Characterisation of the loan loop: output rows are the error-free loans
in order, the error list is the concatenation of every loan's per-row
errors, and the rejected count counts the loans with at least one error. -/
theorem transformLoansGo_spec (t : Transformer) (uids : List Val)
    (loans : List Row) :
    transformLoansGo t uids loans =
      ((loans.filter (fun l => (loanRowErrors t uids l).isEmpty)).map
         (loanOutputRow t),
       loans.flatMap (loanRowErrors t uids),
       loans.countP (fun l => !(loanRowErrors t uids l).isEmpty)) := by
  induction loans with
  | nil => rfl
  | cons l ls ih =>
    simp only [transformLoansGo, ih, List.filter_cons, List.countP_cons,
      List.flatMap_cons]
    by_cases h : (loanRowErrors t uids l).isEmpty
    · have h0 : loanRowErrors t uids l = [] := List.isEmpty_iff.mp h
      simp [h, h0]
    · simp [h]

/-- Same characterisation for the user loop. -/
theorem transformUsersGo_spec (t : Transformer) (users : List Row) :
    transformUsersGo t users =
      ((users.filter (fun u => (userRowErrors t u).isEmpty)).map
         (userOutputRow t),
       users.flatMap (userRowErrors t),
       users.countP (fun u => !(userRowErrors t u).isEmpty)) := by
  induction users with
  | nil => rfl
  | cons u us ih =>
    simp only [transformUsersGo, ih, List.filter_cons, List.countP_cons,
      List.flatMap_cons]
    by_cases h : (userRowErrors t u).isEmpty
    · have h0 : userRowErrors t u = [] := List.isEmpty_iff.mp h
      simp [h, h0]
    · simp [h]

theorem countP_partition {α : Type} (p : α → Bool) (l : List α) :
    l.countP p + l.countP (fun a => !(p a)) = l.length := by
  induction l with
  | nil => rfl
  | cons a as ih =>
    simp only [List.countP_cons, List.length_cons]
    cases h : p a <;> simp [h] <;> omega

theorem transform_loans_partition (t : Transformer) (uids : List Val)
    (loans : List Row) :
    (transform_loans t loans uids).rows.length
      + (transform_loans t loans uids).rejected_count = loans.length := by
  simp only [transform_loans, transformLoansGo_spec]
  simpa [List.countP_eq_length_filter] using
    countP_partition (fun l => (loanRowErrors t uids l).isEmpty) loans

theorem transform_users_partition (t : Transformer) (users : List Row) :
    (transform_users t users).rows.length
      + (transform_users t users).rejected_count = users.length := by
  simp only [transform_users, transformUsersGo_spec]
  simpa [List.countP_eq_length_filter] using
    countP_partition (fun u => (userRowErrors t u).isEmpty) users

/-- A null required field always contributes a NULL_VALUE error. -/
theorem validate_not_null_ne_nil {row : Row} {fields : List String}
    {table f : String} (hmem : f ∈ fields) (hnull : row.get f = Val.vnull) :
    validate_not_null row fields table ≠ [] := by
  have hm : ({ table := table, record_id := row.getD "id" (Val.vstr "unknown"),
               field := f, error_type := "NULL_VALUE",
               message := "Required field " ++ f ++ " is null",
               value := Val.vnull } : ValidationError)
      ∈ validate_not_null row fields table := by
    unfold validate_not_null
    exact List.mem_filterMap.mpr ⟨f, hmem, by simp [hnull]⟩
  exact List.ne_nil_of_mem hm

/-- Every failed rule contributes at least one error to the per-row list. -/
theorem loanFailedRuleCount_le (t : Transformer) (uids : List Val)
    (loan : Row) :
    loanFailedRuleCount t uids loan ≤ (loanRowErrors t uids loan).length := by
  unfold loanFailedRuleCount loanRowErrors
  cases h1 : validate_not_null loan loanRequiredFields "loan" <;>
  cases h2 : validate_foreign_key loan "borrower_id" uids "loan" "user" <;>
  cases h3 : validate_enum loan "status" (loanValidStatuses t) "loan" <;>
  cases h4 : validate_range loan "interest_rate" 0 100 "loan" <;>
    simp [List.length_append]

theorem loanRowErrors_ne_of_null_principal (t : Transformer) (uids : List Val)
    (loan : Row) (h : loan.get "principal_amount" = Val.vnull) :
    loanRowErrors t uids loan ≠ [] := by
  have h1 : validate_not_null loan loanRequiredFields "loan" ≠ [] :=
    validate_not_null_ne_nil (by decide : "principal_amount" ∈ loanRequiredFields) h
  unfold loanRowErrors
  intro hc
  simp only [List.append_eq_nil] at hc
  exact h1 hc.1.1.1

theorem loanRowErrors_ne_of_big_rate (t : Transformer) (uids : List Val)
    (loan : Row) (r : ℚ) (hget : loan.get "interest_rate" = Val.vnum r)
    (hr : 100 < r) : loanRowErrors t uids loan ≠ [] := by
  have h4 : (validate_range loan "interest_rate" 0 100 "loan").isSome := by
    unfold validate_range
    rw [hget]
    simp [Val.asFloat]
    right
    exact hr
  unfold loanRowErrors
  intro hc
  simp only [List.append_eq_nil] at hc
  rcases Option.isSome_iff_exists.mp h4 with ⟨e, he⟩
  rw [he] at hc
  simp at hc

theorem loanRowErrors_ne_of_bad_status (t : Transformer) (uids : List Val)
    (loan : Row) (s : String) (hget : loan.get "status" = Val.vstr s)
    (hs : ∀ a ∈ loanValidStatuses t, a ≠ s) :
    loanRowErrors t uids loan ≠ [] := by
  have h3 : (validate_enum loan "status" (loanValidStatuses t) "loan").isSome := by
    unfold validate_enum
    rw [hget]
    have hany : ((loanValidStatuses t).any
        (fun a => Val.vstr s = Val.vstr a)) = false := by
      rw [List.any_eq_false]
      intro a ha
      simp
      exact fun hsa => hs a ha hsa.symm
    simp [hany]
    intro hmem
    exact hs s hmem rfl
  unfold loanRowErrors
  intro hc
  simp only [List.append_eq_nil] at hc
  rcases Option.isSome_iff_exists.mp h3 with ⟨e, he⟩
  rw [he] at hc
  simp at hc

namespace Extract

theorem foldl_max_mem (xs : List ℤ) (x : ℤ) : xs.foldl max x ∈ x :: xs := by
  induction xs generalizing x with
  | nil => simp
  | cons y ys ih =>
    have h := ih (max x y)
    simp only [List.foldl]
    rcases List.mem_cons.mp h with h1 | h1
    · rcases max_choice x y with hm | hm <;> rw [hm] at h1 ⊢ <;> simp [h1]
    · simp [h1]

theorem le_foldl_self (xs : List ℤ) (x : ℤ) : x ≤ xs.foldl max x := by
  induction xs generalizing x with
  | nil => exact le_refl x
  | cons z zs ih =>
    simp only [List.foldl]
    exact le_trans (le_max_left x z) (ih (max x z))

theorem le_foldl_max (xs : List ℤ) (x y : ℤ) (hmem : y ∈ x :: xs) :
    y ≤ xs.foldl max x := by
  induction xs generalizing x with
  | nil =>
    simp at hmem
    simp [hmem]
  | cons z zs ih =>
    simp only [List.foldl]
    rcases List.mem_cons.mp hmem with h1 | h1
    · calc y = x := h1
        _ ≤ max x z := le_max_left x z
        _ ≤ zs.foldl max (max x z) := le_foldl_self zs (max x z)
    · rcases List.mem_cons.mp h1 with h2 | h2
      · calc y = z := h2
          _ ≤ max x z := le_max_right x z
          _ ≤ zs.foldl max (max x z) := le_foldl_self zs (max x z)
      · exact ih (max x z) (List.mem_cons_of_mem _ h2)

/-- `SELECT MAX(ts)` of a table whose maximum element is `M`. -/
theorem maxTs_spec (table : List ℤ) (M : ℤ) (hmem : M ∈ table)
    (hub : ∀ ts ∈ table, ts ≤ M) : maxTs table = some M := by
  cases table with
  | nil => cases hmem
  | cons x xs =>
    simp only [maxTs, Option.some_inj]
    exact le_antisymm (hub _ (foldl_max_mem xs x)) (le_foldl_max xs x M hmem)

/-- The table maximum dominates every member. -/
theorem maxTs_ge (table : List ℤ) (ts : ℤ) (h : ts ∈ table) :
    ∃ mx, maxTs table = some mx ∧ ts ≤ mx := by
  cases table with
  | nil => cases h
  | cons x xs => exact ⟨xs.foldl max x, rfl, le_foldl_max xs x ts h⟩

theorem insertTs_ne_nil (x : ℤ) (l : List ℤ) : sortTs.insertTs x l ≠ [] := by
  cases l with
  | nil => simp [sortTs.insertTs]
  | cons y ys =>
    simp only [sortTs.insertTs]
    split <;> simp

theorem sortTs_eq_nil_iff (l : List ℤ) : sortTs l = [] ↔ l = [] := by
  cases l with
  | nil => simp [sortTs]
  | cons x xs =>
    simp only [sortTs]
    constructor
    · intro h
      exact absurd h (insertTs_ne_nil x (sortTs xs))
    · intro h
      cases h

theorem mem_insertTs (x y : ℤ) (l : List ℤ) :
    y ∈ sortTs.insertTs x l ↔ y = x ∨ y ∈ l := by
  induction l with
  | nil => simp [sortTs.insertTs]
  | cons z zs ih =>
    simp only [sortTs.insertTs]
    split
    · simp
    · simp [ih]
      tauto

theorem mem_sortTs (y : ℤ) (l : List ℤ) : y ∈ sortTs l ↔ y ∈ l := by
  induction l with
  | nil => simp [sortTs]
  | cons x xs ih =>
    simp [sortTs, mem_insertTs, ih]

end Extract

/- ===== Claims ===== -/

/-- C1 counterexample: a claim instance with k = 1 fails.  Running
`run_transform` on a bundle whose users list contains the same (otherwise
fully valid) user row twice produces, for dim_user, exactly one DUPLICATE
ValidationError, yet BOTH occurrences of the row are present in `rows`
(row_count 2) and none is rejected (rejected_count 0) — so a row failing
k = 1 validation rules (the duplicate-key rule) is not absent from
`TransformResult.rows`. -/
theorem c1_duplicate_row_not_excluded :
    ((run_transform t0 dupUsersBundle).lookup "dim_user").map
        (fun r => (r.row_count, r.rejected_count,
                   r.errors.map (fun e => e.error_type)))
      = some (2, 0, ["DUPLICATE"]) := by decide

/-- C1 (amended): for the four per-row validation rules of transform_loans
(not-null, foreign-key, enum, range), validation is complete: the output
rows are exactly the loans with an empty per-row error list (so any row
failing a per-row rule is absent from `rows`), the result's error list
concatenates every loan's per-row errors in order (none dropped, no
short-circuiting), the rejected count counts exactly the rows with at least
one error, and a row failing k of the four rules contributes at least k
errors.  Duplicate-key errors are recorded by `run_transform` into the
result's error list but do NOT remove the duplicated row from `rows` (see
the counterexample). -/
theorem c1_per_row_validation_complete (t : Transformer) (uids : List Val)
    (loans : List Row) :
    (transform_loans t loans uids).rows
        = (loans.filter (fun l => (loanRowErrors t uids l).isEmpty)).map
            (loanOutputRow t)
    ∧ (transform_loans t loans uids).errors
        = loans.flatMap (loanRowErrors t uids)
    ∧ (transform_loans t loans uids).rejected_count
        = loans.countP (fun l => !(loanRowErrors t uids l).isEmpty)
    ∧ ∀ loan : Row,
        loanFailedRuleCount t uids loan ≤ (loanRowErrors t uids loan).length := by
  refine ⟨?_, ?_, ?_, fun loan => loanFailedRuleCount_le t uids loan⟩ <;>
    simp [transform_loans, transformLoansGo_spec]

/-- C2 counterexample: the spec's six-loan smoke fixture (valid, negative
principal, rate 150, negative term, invalid status, null principal) against
the single valid user id 1 yields row_count 3 and rejected_count 3 — not
row_count ≤ 1 and rejected_count ≥ 5 — because transform_loans applies no
range check to principal_amount or term_months, so the negative-principal
and negative-term loans pass validation. -/
theorem c2_smoke_fixture_counts :
    (transform_loans t0 smokeFixture [Val.vnum 1]).row_count = 3
    ∧ (transform_loans t0 smokeFixture [Val.vnum 1]).rejected_count = 3
    ∧ ¬ ((transform_loans t0 smokeFixture [Val.vnum 1]).row_count ≤ 1
         ∧ 5 ≤ (transform_loans t0 smokeFixture [Val.vnum 1]).rejected_count) := by
  decide

/-- C2 (amended): for any six-loan fixture in which the third loan has an
out-of-range rate (> 100), the fifth an invalid status and the sixth a null
principal, transform_loans with any user-id set rejects at least those 3
loans and keeps at most 3 — the negative-principal and negative-term rows
of the spec's fixture are not rejected, since no validation rule constrains
those fields. -/
theorem c2_smoke_fixture_amended (t : Transformer) (uids : List Val)
    (l1 l2 l3 l4 l5 l6 : Row) (r : ℚ) (s : String)
    (h3 : l3.get "interest_rate" = Val.vnum r) (hr : 100 < r)
    (h5 : l5.get "status" = Val.vstr s)
    (hs : ∀ a ∈ loanValidStatuses t, a ≠ s)
    (h6 : l6.get "principal_amount" = Val.vnull) :
    3 ≤ (transform_loans t [l1, l2, l3, l4, l5, l6] uids).rejected_count
    ∧ (transform_loans t [l1, l2, l3, l4, l5, l6] uids).row_count ≤ 3 := by
  have e3 := loanRowErrors_ne_of_big_rate t uids l3 r h3 hr
  have e5 := loanRowErrors_ne_of_bad_status t uids l5 s h5 hs
  have e6 := loanRowErrors_ne_of_null_principal t uids l6 h6
  have b3 : (!(loanRowErrors t uids l3).isEmpty) = true := by simpa using e3
  have b5 : (!(loanRowErrors t uids l5).isEmpty) = true := by simpa using e5
  have b6 : (!(loanRowErrors t uids l6).isEmpty) = true := by simpa using e6
  have hrej : (transform_loans t [l1, l2, l3, l4, l5, l6] uids).rejected_count
      = List.countP (fun l => !(loanRowErrors t uids l).isEmpty)
          [l1, l2, l3, l4, l5, l6] := by
    simp [transform_loans, transformLoansGo_spec]
  have hrc : (transform_loans t [l1, l2, l3, l4, l5, l6] uids).row_count
      = (transform_loans t [l1, l2, l3, l4, l5, l6] uids).rows.length := by
    simp [transform_loans]
  have hpart := transform_loans_partition t uids [l1, l2, l3, l4, l5, l6]
  have hcount : 3 ≤ List.countP (fun l => !(loanRowErrors t uids l).isEmpty)
      [l1, l2, l3, l4, l5, l6] := by
    simp [List.countP_cons, b3, b5, b6]
    split_ifs <;> omega
  constructor
  · rw [hrej]
    exact hcount
  · have h6len : ([l1, l2, l3, l4, l5, l6] : List Row).length = 6 := rfl
    rw [h6len] at hpart
    rw [hrc]
    omega

/-- C2 witness: the amended bound applied to the concrete smoke fixture. -/
theorem c2_smoke_fixture_amended_witness :
    3 ≤ (transform_loans t0 smokeFixture [Val.vnum 1]).rejected_count
    ∧ (transform_loans t0 smokeFixture [Val.vnum 1]).row_count ≤ 3 :=
  c2_smoke_fixture_amended t0 [Val.vnum 1]
    (smokeFixture.get ⟨0, by decide⟩) (smokeFixture.get ⟨1, by decide⟩)
    (mkLoan 12 (Val.vnum 1000) (Val.vnum 150) (Val.vnum 12) "active")
    (smokeFixture.get ⟨3, by decide⟩)
    (mkLoan 14 (Val.vnum 1000) (Val.vnum 5) (Val.vnum 12) "bogus")
    (mkLoan 15 Val.vnull (Val.vnum 5) (Val.vnum 12) "active")
    150 "bogus" (by decide) (by decide) (by decide) (by decide) (by decide)

/-- C3: per-table watermark monotonicity of the incremental extract round
trip.  (i) If no source row is newer than the stored watermark, the stored
value is unchanged after the run (the code re-writes the same value).
(ii) If new rows exist and M is the table's maximum timestamp with w < M,
the stored watermark becomes exactly M.  (iii) In every case the stored
value never decreases. -/
theorem c3_watermark_monotonicity :
    (∀ (w : ℤ) (table : Extract.SourceTable),
        (∀ ts ∈ table, ts ≤ w) →
        Extract.incrementalWatermarkStep true (some w) table = some w)
    ∧ (∀ (w M : ℤ) (table : Extract.SourceTable),
        M ∈ table → (∀ ts ∈ table, ts ≤ M) → w < M →
        Extract.incrementalWatermarkStep true (some w) table = some M)
    ∧ (∀ (b : Bool) (w m : ℤ) (table : Extract.SourceTable),
        Extract.incrementalWatermarkStep b (some w) table = some m → w ≤ m) := by
  refine ⟨?_, ?_, ?_⟩
  · intro w table hall
    have hfilter : table.filter (fun ts => decide (w < ts)) = [] := by
      rw [List.filter_eq_nil_iff]
      intro ts hts
      simpa using not_lt.mpr (hall ts hts)
    simp [Extract.incrementalWatermarkStep, Extract.extract_incremental,
      hfilter, Extract.sortTs]
  · intro w M table hM hub hwM
    have hmem : M ∈ table.filter (fun ts => decide (w < ts)) :=
      List.mem_filter.mpr ⟨hM, by simpa using hwM⟩
    have hne : Extract.sortTs (table.filter (fun ts => decide (w < ts))) ≠ [] := by
      rw [Ne, Extract.sortTs_eq_nil_iff]
      exact List.ne_nil_of_mem hmem
    have hempty : (Extract.sortTs
        (table.filter (fun ts => decide (w < ts)))).isEmpty = false := by
      rw [List.isEmpty_eq_false]
      exact hne
    have hmax := Extract.maxTs_spec table M hM hub
    simp [Extract.incrementalWatermarkStep, Extract.extract_incremental,
      hempty, hmax]
  · intro b w m table hstep
    by_cases hrows :
        (Extract.sortTs (table.filter (fun ts => decide (w < ts)))).isEmpty
    · simp [Extract.incrementalWatermarkStep, Extract.extract_incremental,
        hrows] at hstep
      omega
    · have hfil : table.filter (fun ts => decide (w < ts)) ≠ [] := by
        intro h0
        exact hrows (by simp [h0, Extract.sortTs])
      rcases List.exists_mem_of_ne_nil _ hfil with ⟨ts, hts⟩
      have hts' := List.mem_filter.mp hts
      have hwts : w < ts := by simpa using hts'.2
      rcases Extract.maxTs_ge table ts hts'.1 with ⟨mx, hmx, hlemx⟩
      have hrows' : (Extract.sortTs
          (table.filter (fun ts => decide (w < ts)))).isEmpty = false := by
        simpa using hrows
      simp [Extract.incrementalWatermarkStep, Extract.extract_incremental,
        hrows', hmx] at hstep
      cases b <;> simp at hstep <;> omega

/-- C3 witness: stored watermark 5, table with timestamps 3, 7, 9 (two new
rows, maximum 9): the stored watermark becomes exactly 9 ≥ 5. -/
theorem c3_watermark_monotonicity_witness :
    Extract.incrementalWatermarkStep true (some 5) [3, 7, 9] = some 9
    ∧ (5 : ℤ) ≤ 9 :=
  ⟨c3_watermark_monotonicity.2.1 5 9 [3, 7, 9] (by decide) (by decide)
    (by decide), by decide⟩

/-- C4: at the failing input (table with rows at timestamps 3 and 5, stored
watermark 5) the incremental extract fetches zero rows, yet the returned
ExtractResult's watermark field IS set — to the prior watermark (`some 5`),
not left None as the claim and the code's own comment ("only if rows were
extracted") state; `run_extract`'s truthiness test then calls
update_watermark even for this empty extract (re-writing the same value). -/
theorem c4_empty_extract_still_sets_watermark :
    (Extract.extract_incremental [3, 5] 5).row_count = 0
    ∧ (Extract.extract_incremental [3, 5] 5).rows = []
    ∧ (Extract.extract_incremental [3, 5] 5).watermark = some 5
    ∧ (Extract.extract_incremental [3, 5] 5).watermark ≠ none := by decide

/-- The interest_amount and total_amount fields of the fact row produced
for an accepted loan with numeric principal, rate and term: interest is
rounded half-even to 2 places in the output field, while total_amount adds
the UNROUNDED interest to the principal (transform.py lines 328, 337-338). -/
theorem loanOutputRow_money_fields (t : Transformer) (loan : Row) (p r m : ℚ)
    (hp : loan.get "principal_amount" = Val.vnum p)
    (hr : loan.get "interest_rate" = Val.vnum r)
    (hm : loan.get "term_months" = Val.vnum m) :
    (loanOutputRow t loan).get "interest_amount"
        = Val.vnum (pyRound (p * (r / 100) * (m / 12)) 2)
    ∧ (loanOutputRow t loan).get "total_amount"
        = Val.vnum (p + p * (r / 100) * (m / 12)) := by
  simp only [Row.get] at hp hr hm
  constructor <;>
    simp [loanOutputRow, Row.get, List.lookup, loanInterestAmount, hp, hr, hm,
      Val.toRat]

/-- C5: at the failing input (a fully valid loan in EUR while the FX-rate
lookup is empty) transform_loans keeps the row (row_count 1, rejected 0)
and falls back to rate 1.0 (fx_rate 1, amount_usd = principal = 200), and
the MISSING_FX_RATE ValidationError is constructed (`loanFxWarning` is the
one-element list built at transform.py lines 305-314) — but the returned
TransformResult's `errors` list is EMPTY: the error was appended to the
per-row `row_errors` list after the rejection check already ran, so it is
discarded instead of being recorded as the claim (and the code's own
comment) states. -/
theorem c5_missing_fx_rate_error_dropped :
    (transform_loans t0 [eurLoan] [Val.vnum 1]).row_count = 1
    ∧ (transform_loans t0 [eurLoan] [Val.vnum 1]).rejected_count = 0
    ∧ (transform_loans t0 [eurLoan] [Val.vnum 1]).rows
        = [loanOutputRow t0 eurLoan]
    ∧ (loanOutputRow t0 eurLoan).get "amount_usd" = Val.vnum 200
    ∧ (loanOutputRow t0 eurLoan).get "principal_amount" = Val.vnum 200
    ∧ (loanOutputRow t0 eurLoan).get "fx_rate" = Val.vnum 1
    ∧ (loanFxWarning t0 eurLoan).map (fun e => e.error_type)
        = ["MISSING_FX_RATE"]
    ∧ (transform_loans t0 [eurLoan] [Val.vnum 1]).errors = [] := by
  have herr : loanRowErrors t0 [Val.vnum 1] eurLoan = [] := by decide
  refine ⟨?_, ?_, ?_, ?_, rfl, ?_, by decide, ?_⟩
  · simp [transform_loans, transformLoansGo, herr]
  · simp [transform_loans, transformLoansGo, herr]
  · simp [transform_loans, transformLoansGo, herr]
  · show Row.get (loanOutputRow t0 eurLoan) "amount_usd" = Val.vnum 200
    simp [loanOutputRow, Row.get, Row.getD, List.lookup, fxLookup, eurLoan,
      Val.toRat, t0]
    norm_num [pyRound, roundHalfEven]
  · show Row.get (loanOutputRow t0 eurLoan) "fx_rate" = Val.vnum 1
    simp [loanOutputRow, Row.get, Row.getD, List.lookup, fxLookup, eurLoan, t0]
  · simp [transform_loans, transformLoansGo, herr]

/-- C6 counterexample: the accepted loan with principal 100, rate 1 and
term 1 has output interest_amount 0.08 (= round(1/12, 2)) but output
total_amount 100 + 1/12 ≠ 100.08: `total_amount` is computed from the
UNROUNDED interest (transform.py line 338), so it does not equal
principal + interest_amount when interest_amount is the (rounded) output
field, contrary to the claim. -/
theorem c6_total_amount_uses_unrounded_interest :
    (transform_loans t0 [loanTwelfth] [Val.vnum 1]).rows
        = [loanOutputRow t0 loanTwelfth]
    ∧ (loanOutputRow t0 loanTwelfth).get "principal_amount" = Val.vnum 100
    ∧ (loanOutputRow t0 loanTwelfth).get "interest_amount" = Val.vnum (2/25)
    ∧ (loanOutputRow t0 loanTwelfth).get "total_amount"
        = Val.vnum (100 + 1/12)
    ∧ (loanOutputRow t0 loanTwelfth).get "total_amount"
        ≠ Val.vnum (100 + 2/25) := by
  have herr : loanRowErrors t0 [Val.vnum 1] loanTwelfth = [] := by decide
  have h := loanOutputRow_money_fields t0 loanTwelfth 100 1 1 rfl rfl rfl
  have hint : pyRound (100 * ((1 : ℚ) / 100) * (1 / 12)) 2 = 2/25 := by
    norm_num [pyRound, roundHalfEven]
  have htot : (100 : ℚ) + 100 * (1 / 100) * (1 / 12) = 100 + 1/12 := by
    norm_num
  have htotal := h.2.trans (by rw [htot])
  refine ⟨?_, rfl, h.1.trans (by rw [hint]), htotal, ?_⟩
  · simp [transform_loans, transformLoansGo, herr]
  · rw [htotal]
    intro hcontra
    have : (100 : ℚ) + 1/12 = 100 + 2/25 := Val.vnum.inj hcontra
    norm_num at this

/-- C6 (amended): for every loan with numeric principal p, rate r and term
m, the output interest_amount equals p * (r/100) * (m/12) rounded half-even
to 2 decimal places, and the output total_amount equals p plus the
UNROUNDED interest p * (r/100) * (m/12). -/
theorem c6_interest_computation (t : Transformer) (loan : Row) (p r m : ℚ)
    (hp : loan.get "principal_amount" = Val.vnum p)
    (hr : loan.get "interest_rate" = Val.vnum r)
    (hm : loan.get "term_months" = Val.vnum m) :
    (loanOutputRow t loan).get "interest_amount"
        = Val.vnum (pyRound (p * (r / 100) * (m / 12)) 2)
    ∧ (loanOutputRow t loan).get "total_amount"
        = Val.vnum (p + p * (r / 100) * (m / 12)) :=
  loanOutputRow_money_fields t loan p r m hp hr hm

/-- C6 witness: the spec's scenario, principal 5000, rate 8.5, term 12 —
interest_amount 425.00 and total_amount 5425.00 (the interest is exact
there, so the rounded and unrounded values agree). -/
theorem c6_interest_computation_witness :
    (loanOutputRow t0 loanScenario).get "interest_amount" = Val.vnum 425
    ∧ (loanOutputRow t0 loanScenario).get "total_amount" = Val.vnum 5425 := by
  have h := c6_interest_computation t0 loanScenario 5000 (17/2) 12 rfl rfl rfl
  have hint : pyRound ((5000 : ℚ) * (17/2 / 100) * (12 / 12)) 2 = 425 := by
    norm_num [pyRound, roundHalfEven]
  have htot : (5000 : ℚ) + 5000 * (17/2 / 100) * (12 / 12) = 5425 := by
    norm_num
  exact ⟨h.1.trans (by rw [hint]), h.2.trans (by rw [htot])⟩

/-- C7: the partition property for all three transform methods — every
input row ends up either as a transformed output row or in the rejected
count, never both and never dropped: len(rows) + rejected_count equals the
input length (and row_count is len(rows)). -/
theorem c7_transform_partition (t : Transformer) (uids : List Val)
    (loans users products : List Row) :
    (transform_loans t loans uids).rows.length
        + (transform_loans t loans uids).rejected_count = loans.length
    ∧ (transform_loans t loans uids).row_count
        = (transform_loans t loans uids).rows.length
    ∧ (transform_users t users).rows.length
        + (transform_users t users).rejected_count = users.length
    ∧ (transform_users t users).row_count
        = (transform_users t users).rows.length
    ∧ (transform_products t products).rows.length
        + (transform_products t products).rejected_count = products.length
    ∧ (transform_products t products).row_count
        = (transform_products t products).rows.length := by
  refine ⟨transform_loans_partition t uids loans, by simp [transform_loans],
    transform_users_partition t users, by simp [transform_users], ?_, ?_⟩ <;>
    simp [transform_products]

/-- C8: load failure isolation.  (i) A database error during the dim_user
upsert (non-empty input) is caught: the loader returns (does not raise) a
LoadResult with success = false carrying the error message, and its only
transaction action is a rollback of that table's unit of work.  (ii) The
fact-load stored procedure reporting any status yields success exactly for
"success", records the procedure's message as the error and the status as
the error code otherwise, and a raised database error is likewise caught
with code SQL_ERROR.  (iii) run_load produces a result for all four tables
whatever each table's database outcome is, the fact and portfolio entries
depending only on their own procedure outcomes — a dimension failure does
not abort the remaining loads. -/
theorem c8_load_failure_isolation :
    (∀ (row : Row) (rest : List Row) (e : String),
        (Load.load_dim_user (row :: rest) (Load.SpCall.raises e)).1.success
            = false
        ∧ (Load.load_dim_user (row :: rest) (Load.SpCall.raises e)).1.error
            = some e
        ∧ (Load.load_dim_user (row :: rest) (Load.SpCall.raises e)).2
            = [Load.ConnAction.rollback])
    ∧ (∀ (rows_loaded rows_rejected : ℕ) (status message : String),
        (Load.load_fact_transactions_via_sp
            (Load.SpCall.returns (rows_loaded, rows_rejected, status, message))).success
            = (status = "success" : Bool)
        ∧ (Load.load_fact_transactions_via_sp
            (Load.SpCall.returns (rows_loaded, rows_rejected, status, message))).error
            = (if status = "success" then none else some message)
        ∧ (Load.load_fact_transactions_via_sp
            (Load.SpCall.returns (rows_loaded, rows_rejected, status, message))).error_code
            = some status)
    ∧ (∀ e : String,
        (Load.load_fact_transactions_via_sp (Load.SpCall.raises e)).success
            = false
        ∧ (Load.load_fact_transactions_via_sp (Load.SpCall.raises e)).error
            = some e
        ∧ (Load.load_fact_transactions_via_sp (Load.SpCall.raises e)).error_code
            = some "SQL_ERROR")
    ∧ (∀ (urows prows : List Row) (db : Load.DbOutcomes),
        (Load.run_load (some urows) (some prows) db).map Prod.fst
            = ["dim_user", "dim_loan_product", "fact_loan_transactions",
               "fact_daily_portfolio"]
        ∧ (Load.run_load (some urows) (some prows) db).lookup
              "fact_loan_transactions"
            = some (Load.load_fact_transactions_via_sp db.fact_db)
        ∧ (Load.run_load (some urows) (some prows) db).lookup
              "fact_daily_portfolio"
            = some (Load.refresh_portfolio_snapshot_via_sp db.portfolio_db)) := by
  refine ⟨?_, ?_, ?_, ?_⟩
  · intro row rest e
    refine ⟨?_, ?_, ?_⟩ <;> simp [Load.load_dim_user]
  · intro rows_loaded rows_rejected status message
    refine ⟨rfl, rfl, rfl⟩
  · intro e
    exact ⟨rfl, rfl, rfl⟩
  · intro urows prows db
    exact ⟨rfl, rfl, rfl⟩

/-- C9: the portfolio snapshot is total and zero-denominator safe: it
always yields the full 19-key summary row, and every guarded ratio is 0
when its denominator would be 0 — default_rate and avg_loan_size when
there are no loans, avg_interest_rate when no loan has an interest rate
(in particular when there are no loans), weighted_avg_credit_score when no
user has a credit score. -/
theorem c9_snapshot_total_and_guarded (t : Transformer)
    (loans users : List Row) :
    (calculate_portfolio_snapshot t loans users).map Prod.fst =
      ["date_key", "total_users", "active_borrowers", "active_lenders",
       "total_loans", "active_loans", "total_principal", "total_outstanding",
       "total_repaid", "loans_originated_today", "amount_originated_today",
       "payments_received_today", "loans_defaulted", "loans_paid_off",
       "default_rate", "delinquency_rate", "avg_loan_size",
       "avg_interest_rate", "weighted_avg_credit_score"]
    ∧ (loans = [] →
        (calculate_portfolio_snapshot t loans users).get "default_rate"
            = Val.vnum 0
        ∧ (calculate_portfolio_snapshot t loans users).get "avg_loan_size"
            = Val.vnum 0)
    ∧ ((∀ l ∈ loans, l.get "interest_rate" = Val.vnull) →
        (calculate_portfolio_snapshot t loans users).get "avg_interest_rate"
            = Val.vnum 0)
    ∧ ((∀ u ∈ users, u.get "credit_score" = Val.vnull) →
        (calculate_portfolio_snapshot t loans users).get
            "weighted_avg_credit_score" = Val.vnum 0) := by
  refine ⟨rfl, ?_, ?_, ?_⟩
  · intro h
    subst h
    constructor <;>
      · simp [calculate_portfolio_snapshot, Row.get, List.lookup]
        simp [pyRound_zero]
  · intro h
    have hf : portfolioInterestRates loans = [] := by
      simp only [portfolioInterestRates, List.map_eq_nil_iff,
        List.filter_eq_nil_iff]
      intro l hl
      simp [h l hl]
    have hget : (calculate_portfolio_snapshot t loans users).get
        "avg_interest_rate"
        = Val.vnum (pyRound
            (if (portfolioInterestRates loans).isEmpty then 0
             else ratSum (portfolioInterestRates loans)
                / ((portfolioInterestRates loans).length : ℚ)) 2) := rfl
    rw [hget, hf]
    simp [pyRound_zero]
  · intro h
    have hf : portfolioCreditScores users = [] := by
      simp only [portfolioCreditScores, List.map_eq_nil_iff,
        List.filter_eq_nil_iff]
      intro u hu
      simp [h u hu]
    have hget : (calculate_portfolio_snapshot t loans users).get
        "weighted_avg_credit_score"
        = Val.vnum (pyRound
            (if (portfolioCreditScores users).isEmpty then 0
             else ratSum (portfolioCreditScores users)
                / ((portfolioCreditScores users).length : ℚ)) 1) := rfl
    rw [hget, hf]
    simp [pyRound_zero]

/-- C9 witness: the guards applied to the empty extract (no loans, no
users). -/
theorem c9_snapshot_total_and_guarded_witness :
    (calculate_portfolio_snapshot t0 [] []).get "default_rate" = Val.vnum 0
    ∧ (calculate_portfolio_snapshot t0 [] []).get "avg_loan_size" = Val.vnum 0
    ∧ (calculate_portfolio_snapshot t0 [] []).get "avg_interest_rate"
        = Val.vnum 0
    ∧ (calculate_portfolio_snapshot t0 [] []).get "weighted_avg_credit_score"
        = Val.vnum 0 := by
  have h := c9_snapshot_total_and_guarded t0 [] []
  have h1 := h.2.1 rfl
  refine ⟨h1.1, h1.2, h.2.2.1 ?_, h.2.2.2 ?_⟩ <;> intro x hx <;> cases hx

/-- C10: run_transform always returns exactly the four keys dim_user,
dim_loan_product, fact_loan_transactions, fact_daily_portfolio (in that
insertion order), and the fact_daily_portfolio entry always holds exactly
the one snapshot row with row_count 1 and rejected_count 0, whatever the
extracted data (including empty loans and users). -/
theorem c10_run_transform_keys_and_portfolio (t : Transformer)
    (ex : ExtractBundle) :
    (run_transform t ex).map Prod.fst
        = ["dim_user", "dim_loan_product", "fact_loan_transactions",
           "fact_daily_portfolio"]
    ∧ (run_transform t ex).lookup "fact_daily_portfolio"
        = some (portfolioEntry t ex)
    ∧ (portfolioEntry t ex).rows.length = 1
    ∧ (portfolioEntry t ex).row_count = 1
    ∧ (portfolioEntry t ex).rejected_count = 0 :=
  ⟨rfl, rfl, rfl, rfl, rfl⟩
